import Mathlib

/-!
Verification development for the E-CommerceProjeto backend (Express + Prisma +
Stripe). The embedding covers the components the checked claims are about:

* `routes/payment.js` — the Stripe webhook settlement pipeline
  (`handleStripeWebhook`, `handleCheckoutSessionCompleted`), namespace `Webhook`;
* `routes/cart.js` and `routes/order.js` — cart item mutation and direct
  checkout, namespace `CartApi`;
* `utils/cartUtils.js` — `calculateTotalPrice`, which computes cart totals with
  JavaScript floating-point arithmetic (`parseFloat`, `*`, `+`); modelled by an
  exact model of IEEE-754 binary64 rounding over `ℚ`;
* the database schema from the SQL migrations (`prisma/migrations/...`), in
  particular the unique index `order_transactions_stripe_id_key` on
  `order_transactions.stripe_id` and the `item_price` / `total_price` decimal
  columns;
* an interleaving model of the stock check-then-decrement race between
  concurrent settlements, namespace `StockRace`.

Database side effects are modelled as pure functions on record states; a
Prisma `$transaction` is an `Except`-valued computation whose error case
restores the pre-transaction state. Monetary `DECIMAL` values are `ℚ`.
-/

/-! ### Exact rational arithmetic helpers

The Batteries implementation of `Rat.add`/`Rat.mul` is `@[irreducible]`, which
blocks kernel evaluation in `decide`. The helpers below implement the same
operations through `mkRat` (which does evaluate) and are proved equal to the
standard operations, so concrete runs evaluate and algebraic reasoning can use
the `+`/`*` theory. -/

def qadd (a b : ℚ) : ℚ := mkRat (a.num * (b.den : ℤ) + b.num * (a.den : ℤ)) (a.den * b.den)

def qmul (a b : ℚ) : ℚ := mkRat (a.num * b.num) (a.den * b.den)

def qsub (a b : ℚ) : ℚ := qadd a (-b)

def intToQ (n : ℤ) : ℚ := mkRat n 1

/-- Sum of a list of rationals, via the evaluable addition. -/
def sumq (l : List ℚ) : ℚ := l.foldr qadd 0

/-! ### IEEE-754 binary64 ("JavaScript number") rounding model

`utils/cartUtils.js` computes money with JavaScript numbers. A JavaScript
number is an IEEE-754 binary64 value; every arithmetic result is rounded to 53
significand bits, to nearest, ties to even. `roundDouble` maps an exact
rational to the rational value of the nearest binary64 float (normal range;
the money magnitudes in `DECIMAL(10,2)` are far from overflow/subnormals). -/

/-- Two to an integer power, as an evaluable rational. -/
def pow2 : ℤ → ℚ
  | Int.ofNat n => intToQ (Int.ofNat (2 ^ n))
  | Int.negSucc n => mkRat 1 (2 ^ (n + 1))

/-- Round a non-negative rational to the nearest integer, ties to even. -/
def rne (y : ℚ) : ℤ :=
  let f := y.floor
  let r := qsub y (intToQ f)
  if r < mkRat 1 2 then f
  else if mkRat 1 2 < r then f + 1
  else if f % 2 = 0 then f else f + 1

/-- Fueled binary logarithm: for `0 < x`, returns `e` with `2 ^ e ≤ x < 2 ^ (e+1)`. -/
def log2q : ℕ → ℚ → ℤ → ℤ
  | 0, _, e => e
  | fuel + 1, x, e =>
    if x < 1 then log2q fuel (qmul (mkRat 2 1) x) (e - 1)
    else if mkRat 2 1 ≤ x then log2q fuel (qmul x (mkRat 1 2)) (e + 1)
    else e

/-- The binary64 value nearest to the exact rational `x` (round to nearest,
ties to even, 53-bit significand). -/
def roundDouble (x : ℚ) : ℚ :=
  if x = 0 then 0
  else
    let y := if x < 0 then -x else x
    let e := log2q 400 y 0
    let m := qmul (intToQ (rne (qmul y (pow2 (52 - e))))) (pow2 (e - 52))
    if x < 0 then -m else m

/-- JavaScript `+` on numbers: exact sum, rounded to binary64. -/
def jsAdd (a b : ℚ) : ℚ := roundDouble (qadd a b)

/-- JavaScript `*` on numbers: exact product, rounded to binary64. -/
def jsMul (a b : ℚ) : ℚ := roundDouble (qmul a b)

/-- A cart item as seen by `calculateTotalPrice`: the `itemPrice` decimal
snapshot and the integer quantity. -/
structure JsItem where
  itemPrice : ℚ
  quantity : ℤ
deriving DecidableEq

/-- From `utils/cartUtils.js` (src/unnamed/part_007, lines 4-13):
`items.reduce((total, item) => total + parseFloat(item.itemPrice.toString()) * item.quantity, 0)`.
`parseFloat` of the exact decimal string of a `DECIMAL(10,2)` value yields the
nearest binary64, and each `*` and `+` rounds to binary64 again. -/
def calculateTotalPrice (items : List JsItem) : ℚ :=
  items.foldl
    (fun total it => jsAdd total (jsMul (roundDouble it.itemPrice) (roundDouble (intToQ it.quantity))))
    0

/-- Modelled from the spec: the exact decimal sum over all items of
`itemPrice × quantity`, "decimal-precise, not floating-point-approximate"
(spec sections 4.1 and 8); the repository computes this total only through the
floating-point `calculateTotalPrice` above. -/
def exactTotalPrice (items : List JsItem) : ℚ :=
  items.foldl (fun total it => qadd total (qmul it.itemPrice (intToQ it.quantity))) 0

/-! ### Cart and direct-checkout model (`routes/cart.js`, `routes/order.js`)

These routes use the Prisma models `cart`, `cartItem`, `productVariant`,
`order`, `orderItem`. `schema.prisma` is not part of the sources; the column
set is taken from the SQL migrations (`item_price` and `total_price` are
`DECIMAL(10,2)`, quantities and stock are `INTEGER`) and, for the cart status
enum, from spec section 3 (`ACTIVE`, `ABANDONED`, `CHECKED_OUT`, plus the
`COMPLETED` value written by `routes/order.js:79`). A `DECIMAL(10,2)` column
rounds the bound JavaScript number to two fractional digits on write. -/

namespace CartApi

inductive CartStatus where
  | ACTIVE
  | ABANDONED
  | CHECKED_OUT
  | COMPLETED
deriving DecidableEq

structure Variant where
  id : ℕ
  productId : ℕ
  price : ℚ
deriving DecidableEq

structure CartItem where
  id : ℕ
  cartId : ℕ
  productId : ℕ
  variantId : ℕ
  quantity : ℤ
  itemPrice : ℚ
deriving DecidableEq

structure Cart where
  id : ℕ
  userId : ℕ
  cartStatus : CartStatus
  totalPrice : ℚ
  orderId : Option ℕ
  completedAt : Option ℕ
deriving DecidableEq

structure Order where
  id : ℕ
  userId : ℕ
  orderStatus : String
  totalPrice : ℚ
  shippingAddress : String
  paymentMethod : String
  orderNotes : String
deriving DecidableEq

structure OrderItem where
  orderId : ℕ
  productId : ℕ
  variantId : ℕ
  quantity : ℤ
  priceAtPurchase : ℚ
deriving DecidableEq

structure DB where
  products : List ℕ
  variants : List Variant
  carts : List Cart
  items : List CartItem
  orders : List Order
  orderItems : List OrderItem
  nextCartId : ℕ
  nextItemId : ℕ
  nextOrderId : ℕ
deriving DecidableEq

/-- Round a non-negative rational to the nearest integer, half away from zero
(the rounding a PostgreSQL numeric column applies when reducing scale). -/
def roundHalfUpNonneg (y : ℚ) : ℤ :=
  let f := y.floor
  if qsub y (intToQ f) < mkRat 1 2 then f else f + 1

/-- Quantization applied when a JavaScript number is written to a
`DECIMAL(10,2)` column. -/
def pgRound2 (x : ℚ) : ℚ :=
  if x < 0 then -(mkRat (roundHalfUpNonneg (qmul (-x) (mkRat 100 1))) 100)
  else mkRat (roundHalfUpNonneg (qmul x (mkRat 100 1))) 100

/-- Lookup `prisma.cart.findFirst(where: userId, cartStatus: ACTIVE)`. -/
def findActiveCart (db : DB) (userId : ℕ) : Option Cart :=
  db.carts.find? (fun c => c.userId == userId && c.cartStatus == CartStatus.ACTIVE)

/-- Lookup `prisma.productVariant.findUnique(where: id)`. -/
def findVariant (db : DB) (variantId : ℕ) : Option Variant :=
  db.variants.find? (fun v => v.id == variantId)

/-- Lookup `prisma.cartItem.findUnique(where: id)`. -/
def findItem (db : DB) (itemId : ℕ) : Option CartItem :=
  db.items.find? (fun i => i.id == itemId)

/-- Lookup in the style of `prisma.cart.findUnique` of a cart row by id (the `cart`
relation included on a cart item). -/
def findCartRow (db : DB) (cartId : ℕ) : Option Cart :=
  db.carts.find? (fun c => c.id == cartId)

/-- The items of one cart, `prisma.cartItem.findMany(where: cartId)`. -/
def itemsOfCart (db : DB) (cartId : ℕ) : List CartItem :=
  db.items.filter (fun i => i.cartId == cartId)

/-- Recompute and persist a cart total as `routes/cart.js` does after every
mutation: `calculateTotalPrice(allItems)` in floating point, then the update
of the `DECIMAL(10,2)` `total_price` column. -/
def recalcCartTotal (db : DB) (cartId : ℕ) : DB :=
  let allItems := itemsOfCart db cartId
  let newTotalPrice := pgRound2 (calculateTotalPrice (allItems.map (fun i => ⟨i.itemPrice, i.quantity⟩)))
  { db with carts := db.carts.map (fun c => if c.id == cartId then { c with totalPrice := newTotalPrice } else c) }

/-- Route `POST /api/cart/items` (routes/cart.js lines 90-178). Returns the HTTP
status and the resulting database state. Steps, in source order: find or
create the active cart; `findFirst` the cart item with that product and
variant; `findUnique` the variant (404 when absent); then either increment
quantity and refresh the price snapshot (200) or insert a new item with the
variant's current price (201; a foreign-key violation on `productId` is
mapped to 404 by the `P2003` handler); finally recompute the cart total.
There is no check that the variant belongs to the stated product. -/
def addItem (db : DB) (userId productId variantId : ℕ) (qty : ℤ) : ℕ × DB :=
  let cartDb : Cart × DB :=
    match findActiveCart db userId with
    | some c => (c, db)
    | none =>
      let c : Cart := ⟨db.nextCartId, userId, CartStatus.ACTIVE, 0, none, none⟩
      (c, { db with carts := db.carts ++ [c], nextCartId := db.nextCartId + 1 })
  let cart := cartDb.1
  let db0 := cartDb.2
  let existing := db0.items.find?
    (fun i => i.cartId == cart.id && i.productId == productId && i.variantId == variantId)
  match findVariant db0 variantId with
  | none => (404, db0)
  | some v =>
    match existing with
    | some it =>
      let upd := fun (j : CartItem) =>
        if j.id == it.id then { j with quantity := it.quantity + qty, itemPrice := v.price } else j
      let db1 := { db0 with items := db0.items.map upd }
      (200, recalcCartTotal db1 cart.id)
    | none =>
      if db0.products.contains productId then
        let newItem : CartItem := ⟨db0.nextItemId, cart.id, productId, variantId, qty, v.price⟩
        let db1 := { db0 with items := db0.items ++ [newItem], nextItemId := db0.nextItemId + 1 }
        (201, recalcCartTotal db1 cart.id)
      else (404, db0)

/-- Route `PUT /api/cart/items/:itemId` (routes/cart.js lines 184-232): find the
item (404 when absent), check it belongs to the caller's ACTIVE cart (403
otherwise), update only the `quantity` field, recompute the cart total. -/
def updateItemQuantity (db : DB) (userId itemId : ℕ) (newQty : ℤ) : ℕ × DB :=
  match findItem db itemId with
  | none => (404, db)
  | some cartItem =>
    match findCartRow db cartItem.cartId with
    | none => (500, db)
    | some cart =>
      if cart.userId ≠ userId ∨ cart.cartStatus ≠ CartStatus.ACTIVE then (403, db)
      else
        let upd := fun (j : CartItem) =>
          if j.id == itemId then { j with quantity := newQty } else j
        let db1 := { db with items := db.items.map upd }
        (200, recalcCartTotal db1 cartItem.cartId)

/-- Route `POST /api/orders` (routes/order.js lines 18-112): direct checkout inside
one `$transaction`. The two business preconditions throw before any write, so
their catch handler returns 400 with the state untouched; on success the
order, its items, the cart status flip and the item deletion commit together. -/
def checkout (db : DB) (userId : ℕ) (shippingAddress paymentMethod orderNotes : String) (now : ℕ) : ℕ × DB :=
  match findActiveCart db userId with
  | none => (400, db)
  | some activeCart =>
    let cartItems := itemsOfCart db activeCart.id
    if cartItems.length = 0 then (400, db)
    else
      let calculatedTotal := pgRound2 (calculateTotalPrice (cartItems.map (fun i => ⟨i.itemPrice, i.quantity⟩)))
      let oid := db.nextOrderId
      let newOrder : Order := ⟨oid, userId, "PENDING", calculatedTotal, shippingAddress, paymentMethod, orderNotes⟩
      let orderItemsData := cartItems.map
        (fun i => OrderItem.mk oid i.productId i.variantId i.quantity i.itemPrice)
      let db1 := { db with
        orders := db.orders ++ [newOrder],
        orderItems := db.orderItems ++ orderItemsData,
        carts := db.carts.map (fun c =>
          if c.id == activeCart.id then
            { c with cartStatus := CartStatus.COMPLETED, completedAt := some now, orderId := some oid }
          else c),
        items := db.items.filter (fun i => !(i.cartId == activeCart.id)),
        nextOrderId := oid + 1 }
      (201, db1)

end CartApi

/-! ### Webhook settlement model (`routes/payment.js`)

`handleStripeWebhook` verifies the Stripe signature (400 on mismatch), then
dispatches on the event type and answers 200; its catch-all answers 500 only
if a dispatched handler throws. `handleCheckoutSessionCompleted` does all its
own error handling inside an internal try/catch (lines 186 and 308-311), so no
error ever escapes it. Settlement runs the stock decrements, the order with
its line items, the order transaction and the cart-item cleanup inside one
`prisma.$transaction` (lines 250-306); the transaction aborts atomically on
the unique-index violations `orders_order_number_key` and
`order_transactions_stripe_id_key` (migration src/unnamed/part_003, lines
277-280). `orderNumber` is the template string
composed of `Date.now()` and the user id, modelled as that pair of numbers.
Prisma `Decimal` arithmetic (`new Decimal`, `mul`, `add`) is exact rational
arithmetic; `.toNumber()` before a `DECIMAL(10,2)` write is modelled as exact,
which is faithful for in-range two-decimal amounts. -/

namespace Webhook

structure User where
  id : ℕ
  email : String
deriving DecidableEq

structure Product where
  id : ℕ
  name : String
deriving DecidableEq

structure Variant where
  id : ℕ
  productId : ℕ
  sku : String
  title : String
  price : ℚ
  stock : ℤ
deriving DecidableEq

structure Cart where
  id : ℕ
  userId : ℕ
deriving DecidableEq

structure CartItem where
  id : ℕ
  cartId : ℕ
  productId : ℕ
  variantId : ℕ
  quantity : ℤ
  itemPrice : ℚ
deriving DecidableEq

structure Order where
  id : ℕ
  orderNumberNow : ℕ
  orderNumberUser : ℕ
  userId : ℕ
  email : String
  subtotal : ℚ
  taxAmount : ℚ
  shippingAmount : ℚ
  totalAmount : ℚ
  status : String
  financialStatus : String
  fulfillmentStatus : String
deriving DecidableEq

structure LineItem where
  orderId : ℕ
  productId : ℕ
  variantId : ℕ
  quantity : ℤ
  price : ℚ
  total : ℚ
  title : String
  variantTitle : String
  sku : String
deriving DecidableEq

structure Txn where
  orderId : ℕ
  stripeId : String
  stripeObjectType : String
  status : String
  paymentMethod : String
  amount : ℚ
  feeAmount : ℚ
deriving DecidableEq

structure DB where
  users : List User
  products : List Product
  variants : List Variant
  carts : List Cart
  cartItems : List CartItem
  orders : List Order
  lineItems : List LineItem
  transactions : List Txn
  nextOrderId : ℕ
deriving DecidableEq

/-- The fields of `session` the handler reads: the `metadata` correlation ids
and the payment identifier recorded on the transaction. -/
structure Session where
  userId : ℕ
  cartId : ℕ
  paymentIntent : String
  paymentMethodFirst : Option String
deriving DecidableEq

def findCart (db : DB) (cartId : ℕ) : Option Cart :=
  db.carts.find? (fun c => c.id == cartId)

def findUser (db : DB) (userId : ℕ) : Option User :=
  db.users.find? (fun u => u.id == userId)

def findVariant (db : DB) (variantId : ℕ) : Option Variant :=
  db.variants.find? (fun v => v.id == variantId)

def findProduct (db : DB) (productId : ℕ) : Option Product :=
  db.products.find? (fun p => p.id == productId)

def cartItemsOf (db : DB) (cartId : ℕ) : List CartItem :=
  db.cartItems.filter (fun i => i.cartId == cartId)

/-- Reason the pre-transaction phase of the settlement handler stops (the
handler logs and returns without touching storage). -/
inductive PrepErr where
  | missingRelation
  | insufficientStock
deriving DecidableEq

/-- One element of `lineItemsData` (payment.js lines 233-242). -/
structure LineData where
  productId : ℕ
  variantId : ℕ
  quantity : ℤ
  price : ℚ
  total : ℚ
  title : String
  variantTitle : String
  sku : String
deriving DecidableEq

/-- The loop of payment.js lines 221-243: per cart item, take the variant's
current price, accumulate the running `totalAmount`, re-check
`variant.stock >= quantity` (returning without any write when it fails), and
collect the line-item payload. Accessing a broken `variant`/`product`
relation would throw a TypeError that the handler's catch swallows, also
leaving the state untouched. -/
def prepare (db : DB) : List CartItem → ℚ → Except PrepErr (List LineData × ℚ)
  | [], acc => .ok ([], acc)
  | item :: rest, acc =>
    match findVariant db item.variantId, findProduct db item.productId with
    | some v, some p =>
      let itemTotal := qmul v.price (intToQ item.quantity)
      if v.stock < item.quantity then .error .insufficientStock
      else
        match prepare db rest (qadd acc itemTotal) with
        | .error e => .error e
        | .ok (lds, t) =>
          .ok (⟨item.productId, item.variantId, item.quantity, v.price, itemTotal, p.name, v.title, v.sku⟩ :: lds, t)
    | _, _ => .error .missingRelation

/-- Unique-index violations that abort the `$transaction`. -/
inductive TxErr where
  | dupOrderNumber
  | dupStripeId
deriving DecidableEq

/-- Transaction step 3.1: unconditional `stock: decrement quantity` updates,
one per cart item; nothing constrains the result to stay non-negative. -/
def decStock (db : DB) (items : List CartItem) : DB :=
  items.foldl
    (fun d item =>
      let upd := fun (v : Variant) =>
        if v.id == item.variantId then { v with stock := v.stock - item.quantity } else v
      { d with variants := d.variants.map upd })
    db

/-- Transaction step 3.2: `tx.order.create` with the nested line items; fails
on the `orders_order_number_key` unique index. -/
def createOrder (db : DB) (now uid : ℕ) (email : String) (orderTotal : ℚ) (lds : List LineData) :
    Except TxErr (DB × ℕ) :=
  if db.orders.any (fun o => o.orderNumberNow == now && o.orderNumberUser == uid) then
    .error .dupOrderNumber
  else
    let oid := db.nextOrderId
    let o : Order := ⟨oid, now, uid, uid, email, orderTotal, 0, 0, orderTotal, "processing", "paid", "unfulfilled"⟩
    let lis := lds.map (fun ld =>
      LineItem.mk oid ld.productId ld.variantId ld.quantity ld.price ld.total ld.title ld.variantTitle ld.sku)
    .ok ({ db with orders := db.orders ++ [o], lineItems := db.lineItems ++ lis, nextOrderId := oid + 1 }, oid)

/-- Transaction step 3.3: `tx.orderTransaction.create`; fails on the
`order_transactions_stripe_id_key` unique index when a transaction with this
`stripeId` already exists. -/
def createTxn (db : DB) (oid : ℕ) (s : Session) (orderTotal : ℚ) : Except TxErr DB :=
  if db.transactions.any (fun t => t.stripeId == s.paymentIntent) then .error .dupStripeId
  else
    let t : Txn := ⟨oid, s.paymentIntent, "checkout.session", "succeeded",
      s.paymentMethodFirst.getD "card", orderTotal, 0⟩
    .ok { db with transactions := db.transactions ++ [t] }

/-- Transaction step 3.4: `items: deleteMany` on the cart. -/
def clearCartItems (db : DB) (cartId : ℕ) : DB :=
  { db with cartItems := db.cartItems.filter (fun i => !(i.cartId == cartId)) }

/-- The `prisma.$transaction` body (payment.js lines 250-306): stock
decrements, then the order with its line items, then the order transaction,
then the cart cleanup. An error at any step makes the caller observe the
pre-transaction state. -/
def settleTx (db : DB) (s : Session) (now : ℕ) (email : String) (items : List CartItem)
    (lds : List LineData) (orderTotal : ℚ) : Except TxErr (DB × ℕ) :=
  let db1 := decStock db items
  match createOrder db1 now s.userId email orderTotal lds with
  | .error e => .error e
  | .ok (db2, oid) =>
    match createTxn db2 oid s orderTotal with
    | .error e => .error e
    | .ok db3 => .ok (clearCartItems db3 s.cartId, oid)

/-- How one delivery of a `checkout.session.completed` event ended. -/
inductive Outcome where
  | cartNotFound
  | userNotFound
  | prepFailed (e : PrepErr)
  | txFailed (e : TxErr)
  | settled (oid : ℕ)
deriving DecidableEq

/-- Handler `handleCheckoutSessionCompleted` (payment.js lines 185-312): resolve the
cart and user from the session metadata, build the line items with the final
stock check, then run the settlement transaction. Every failure is caught
inside the function (log only), so it always returns; the state it leaves
behind is the first component. -/
def handleCheckoutSessionCompleted (db : DB) (s : Session) (now : ℕ) : DB × Outcome :=
  match findCart db s.cartId with
  | none => (db, .cartNotFound)
  | some cart =>
    match findUser db s.userId with
    | none => (db, .userNotFound)
    | some user =>
      let items := cartItemsOf db cart.id
      match prepare db items 0 with
      | .error e => (db, .prepFailed e)
      | .ok (lds, orderTotal) =>
        match settleTx db s now user.email items lds orderTotal with
        | .error e => (db, .txFailed e)
        | .ok (db2, oid) => (db2, .settled oid)

/-- The event kinds the dispatcher distinguishes (payment.js lines 121-136). -/
inductive EventType where
  | checkoutSessionCompleted
  | checkoutSessionExpired
  | unrecognized
deriving DecidableEq

/-- Handler `handleStripeWebhook` (payment.js lines 105-146): 400 when the signature
check fails, otherwise dispatch and acknowledge with 200. The 500 branch of
its catch is reachable only if a dispatched handler throws, and both defined
handlers catch their own errors. Returns the HTTP status and resulting state. -/
def handleStripeWebhook (db : DB) (signatureValid : Bool) (ev : EventType) (s : Session) (now : ℕ) :
    ℕ × DB :=
  if !signatureValid then (400, db)
  else
    match ev with
    | .checkoutSessionCompleted => (200, (handleCheckoutSessionCompleted db s now).1)
    | .checkoutSessionExpired => (200, db)
    | .unrecognized => (200, db)

/-- The complete set of rows the settlement transaction persists, relative to
the pre-settlement state. -/
def settlementEffects (db db' : DB) (s : Session) (now oid : ℕ) (email : String)
    (items : List CartItem) (lds : List LineData) (orderTotal : ℚ) : Prop :=
  oid = db.nextOrderId ∧
  db'.orders = db.orders ++
    [⟨oid, now, s.userId, s.userId, email, orderTotal, 0, 0, orderTotal, "processing", "paid", "unfulfilled"⟩] ∧
  db'.lineItems = db.lineItems ++ lds.map (fun ld =>
    LineItem.mk oid ld.productId ld.variantId ld.quantity ld.price ld.total ld.title ld.variantTitle ld.sku) ∧
  db'.transactions = db.transactions ++
    [⟨oid, s.paymentIntent, "checkout.session", "succeeded", s.paymentMethodFirst.getD "card", orderTotal, 0⟩] ∧
  db'.variants = (decStock db items).variants ∧
  db'.cartItems = db.cartItems.filter (fun i => !(i.cartId == s.cartId)) ∧
  db'.carts = db.carts ∧ db'.users = db.users ∧ db'.products = db.products ∧
  db'.nextOrderId = db.nextOrderId + 1

end Webhook

/-! ### Interleaving model of concurrent settlement stock updates

One settlement attempt touches a variant's stock in two separate database
round trips: it first reads the stock and compares it with the purchased
quantity (the pre-check of payment.js lines 221-231, itself preceded by the
session-creation check of lines 56-60), and only later, inside the
transaction, issues an unconditional `stock: decrement` update (lines
255-261). Nothing orders the check of one attempt before the decrement of
another, so two attempts over the same variant may interleave. A state holds
the variant's stock and each attempt's progress; a schedule is the list of
attempt indices in execution order, each index advancing that attempt by one
step. -/

namespace StockRace

/-- Progress of one settlement attempt against the shared variant. -/
inductive Phase where
  | beforeCheck
  | checkedOk
  | succeeded
  | failed
deriving DecidableEq

/-- Shared variant stock plus, per attempt, its purchased quantity and phase. -/
structure RState where
  stock : ℤ
  attempts : List (ℤ × Phase)
deriving DecidableEq

/-- Advance attempt `i` by one step: its stock pre-check (reading the current
shared stock), or its unconditional decrement. Finished or unknown attempts
are unchanged. -/
def stepAttempt (s : RState) (i : ℕ) : RState :=
  match s.attempts.get? i with
  | none => s
  | some (q, ph) =>
    match ph with
    | .beforeCheck =>
      if s.stock < q then { s with attempts := s.attempts.set i (q, Phase.failed) }
      else { s with attempts := s.attempts.set i (q, Phase.checkedOk) }
    | .checkedOk => { stock := s.stock - q, attempts := s.attempts.set i (q, Phase.succeeded) }
    | _ => s

/-- Run a schedule of attempt steps. -/
def run (s : RState) (schedule : List ℕ) : RState :=
  schedule.foldl stepAttempt s

/-- Number of attempts that completed their decrement. -/
def succeededCount (s : RState) : ℕ :=
  (s.attempts.filter (fun a => a.2 == Phase.succeeded)).length

end StockRace

/-! ### Concrete fixtures used by witnesses and counterexamples -/

/-- A user, product, variant, cart and cart item sufficient for a successful
settlement. The variant's catalog price (12) differs from the cart item's
`itemPrice` snapshot (10), and stock 10 covers the purchased quantity 2. -/
def wDb : Webhook.DB :=
  { users := [⟨1, "user1@example.com"⟩]
    products := [⟨1, "Tee"⟩]
    variants := [⟨2, 1, "SKU-1", "M", mkRat 12 1, 10⟩]
    carts := [⟨7, 1⟩]
    cartItems := [⟨1, 7, 1, 2, 2, mkRat 10 1⟩]
    orders := []
    lineItems := []
    transactions := []
    nextOrderId := 1 }

/-- The session Stripe echoes back for `wDb`'s cart. -/
def wSession : Webhook.Session := ⟨1, 7, "pi_1", some "card"⟩

/-- Like `wDb` but a transaction with the same `stripeId` was already
recorded, so the settlement transaction hits the unique index and rolls back. -/
def wDbDup : Webhook.DB :=
  { wDb with transactions := [⟨0, "pi_1", "checkout.session", "succeeded", "card", mkRat 5 1, 0⟩] }

/-- Catalog with two products where variant 5 belongs to product 2, used to
exercise `addItem` with a mismatched product id. -/
def cDb : CartApi.DB :=
  { products := [1, 2]
    variants := [⟨5, 2, mkRat 10 1⟩]
    carts := []
    items := []
    orders := []
    orderItems := []
    nextCartId := 100
    nextItemId := 200
    nextOrderId := 300 }

/-- A state whose user 1 has an ACTIVE cart with no items. -/
def cDbEmptyCart : CartApi.DB :=
  { cDb with carts := [⟨10, 1, CartApi.CartStatus.ACTIVE, 0, none, none⟩] }

/-- A state with an ACTIVE cart holding one item whose `itemPrice` snapshot
(10) differs from the variant's current price (12). -/
def cDb10 : CartApi.DB :=
  { products := [1]
    variants := [⟨5, 1, mkRat 12 1⟩]
    carts := [⟨10, 1, CartApi.CartStatus.ACTIVE, mkRat 10 1, none, none⟩]
    items := [⟨20, 10, 1, 5, 1, mkRat 10 1⟩]
    orders := []
    orderItems := []
    nextCartId := 11
    nextItemId := 21
    nextOrderId := 31 }

/-! ### Bridge lemmas for the evaluable rational operations -/

theorem qadd_eq_add (a b : ℚ) : qadd a b = a + b := by
  have ha : (a.den : ℚ) ≠ 0 := by exact_mod_cast a.den_nz
  have hb : (b.den : ℚ) ≠ 0 := by exact_mod_cast b.den_nz
  unfold qadd
  conv_rhs => rw [← Rat.num_div_den a, ← Rat.num_div_den b]
  rw [Rat.mkRat_eq_div, div_add_div _ _ ha hb]
  push_cast
  ring_nf

theorem qmul_eq_mul (a b : ℚ) : qmul a b = a * b := by
  unfold qmul
  conv_rhs => rw [← Rat.num_div_den a, ← Rat.num_div_den b]
  rw [Rat.mkRat_eq_div, div_mul_div_comm]
  push_cast
  ring_nf

theorem intToQ_eq (n : ℤ) : intToQ n = (n : ℚ) := by
  unfold intToQ
  rw [Rat.mkRat_eq_div]
  norm_num

/-! ### Structural lemmas about the settlement pipeline -/

namespace Webhook

theorem decStock_fields (items : List CartItem) : ∀ db : DB,
    (decStock db items).users = db.users ∧
    (decStock db items).products = db.products ∧
    (decStock db items).carts = db.carts ∧
    (decStock db items).cartItems = db.cartItems ∧
    (decStock db items).orders = db.orders ∧
    (decStock db items).lineItems = db.lineItems ∧
    (decStock db items).transactions = db.transactions ∧
    (decStock db items).nextOrderId = db.nextOrderId := by
  induction items with
  | nil => intro db; exact ⟨rfl, rfl, rfl, rfl, rfl, rfl, rfl, rfl⟩
  | cons a t ih =>
    intro db
    exact ih { db with variants := db.variants.map fun v => if v.id == a.variantId then { v with stock := v.stock - a.quantity } else v }

theorem createOrder_ok {db : DB} {now uid : ℕ} {email : String} {orderTotal : ℚ}
    {lds : List LineData} {db2 : DB} {oid : ℕ}
    (h : createOrder db now uid email orderTotal lds = .ok (db2, oid)) :
    db.orders.any (fun o => o.orderNumberNow == now && o.orderNumberUser == uid) = false ∧
    oid = db.nextOrderId ∧
    db2 = { db with
      orders := db.orders ++
        [⟨db.nextOrderId, now, uid, uid, email, orderTotal, 0, 0, orderTotal, "processing", "paid", "unfulfilled"⟩],
      lineItems := db.lineItems ++ lds.map (fun ld =>
        LineItem.mk db.nextOrderId ld.productId ld.variantId ld.quantity ld.price ld.total ld.title ld.variantTitle ld.sku),
      nextOrderId := db.nextOrderId + 1 } := by
  cases hany : db.orders.any (fun o => o.orderNumberNow == now && o.orderNumberUser == uid) with
  | true =>
    simp only [createOrder, hany, if_true] at h
    exact Except.noConfusion h
  | false =>
    simp only [createOrder, hany, Bool.false_eq_true, if_false, Except.ok.injEq, Prod.mk.injEq] at h
    exact ⟨rfl, h.2.symm, h.1.symm⟩

theorem createTxn_ok {db : DB} {oid : ℕ} {s : Session} {orderTotal : ℚ} {db3 : DB}
    (h : createTxn db oid s orderTotal = .ok db3) :
    db.transactions.any (fun t => t.stripeId == s.paymentIntent) = false ∧
    db3 = { db with transactions := db.transactions ++
      [⟨oid, s.paymentIntent, "checkout.session", "succeeded", s.paymentMethodFirst.getD "card", orderTotal, 0⟩] } := by
  cases hany : db.transactions.any (fun t => t.stripeId == s.paymentIntent) with
  | true =>
    simp only [createTxn, hany, if_true] at h
    exact Except.noConfusion h
  | false =>
    simp only [createTxn, hany, Bool.false_eq_true, if_false, Except.ok.injEq] at h
    exact ⟨rfl, h.symm⟩

theorem settleTx_ok {db : DB} {s : Session} {now : ℕ} {email : String} {items : List CartItem}
    {lds : List LineData} {orderTotal : ℚ} {db' : DB} {oid : ℕ}
    (h : settleTx db s now email items lds orderTotal = .ok (db', oid)) :
    ∃ db2 db3,
      createOrder (decStock db items) now s.userId email orderTotal lds = .ok (db2, oid) ∧
      createTxn db2 oid s orderTotal = .ok db3 ∧
      db' = clearCartItems db3 s.cartId := by
  cases h1 : createOrder (decStock db items) now s.userId email orderTotal lds with
  | error e =>
    simp only [settleTx, h1] at h
    exact Except.noConfusion h
  | ok pr =>
    obtain ⟨db2, oid2⟩ := pr
    cases h2 : createTxn db2 oid2 s orderTotal with
    | error e =>
      simp only [settleTx, h1, h2] at h
      exact Except.noConfusion h
    | ok db3 =>
      simp only [settleTx, h1, h2, Except.ok.injEq, Prod.mk.injEq] at h
      obtain ⟨hdb, hoid⟩ := h
      subst hdb
      subst hoid
      exact ⟨db2, db3, rfl, h2, rfl⟩

theorem handle_settled {db db' : DB} {s : Session} {now oid : ℕ}
    (h : handleCheckoutSessionCompleted db s now = (db', .settled oid)) :
    ∃ cart user lds orderTotal,
      findCart db s.cartId = some cart ∧
      findUser db s.userId = some user ∧
      prepare db (cartItemsOf db cart.id) 0 = .ok (lds, orderTotal) ∧
      settleTx db s now user.email (cartItemsOf db cart.id) lds orderTotal = .ok (db', oid) := by
  cases hc : findCart db s.cartId with
  | none =>
    simp only [handleCheckoutSessionCompleted, hc, Prod.mk.injEq] at h
    exact absurd h.2 (by simp)
  | some cart =>
    cases hu : findUser db s.userId with
    | none =>
      simp only [handleCheckoutSessionCompleted, hc, hu, Prod.mk.injEq] at h
      exact absurd h.2 (by simp)
    | some user =>
      cases hp : prepare db (cartItemsOf db cart.id) 0 with
      | error e =>
        simp only [handleCheckoutSessionCompleted, hc, hu, hp, Prod.mk.injEq] at h
        exact absurd h.2 (by simp)
      | ok pr =>
        obtain ⟨lds, orderTotal⟩ := pr
        cases ht : settleTx db s now user.email (cartItemsOf db cart.id) lds orderTotal with
        | error e =>
          simp only [handleCheckoutSessionCompleted, hc, hu, hp, ht, Prod.mk.injEq] at h
          exact absurd h.2 (by simp)
        | ok pr2 =>
          obtain ⟨db2, oid2⟩ := pr2
          simp only [handleCheckoutSessionCompleted, hc, hu, hp, ht, Prod.mk.injEq,
            Outcome.settled.injEq] at h
          obtain ⟨hdb, hoid⟩ := h
          subst hdb; subst hoid
          exact ⟨cart, user, lds, orderTotal, rfl, rfl, hp, ht⟩

theorem handle_not_settled {db db' : DB} {s : Session} {now : ℕ} {o : Outcome}
    (h : handleCheckoutSessionCompleted db s now = (db', o))
    (hns : ∀ i, o ≠ .settled i) : db' = db := by
  cases hc : findCart db s.cartId with
  | none =>
    simp only [handleCheckoutSessionCompleted, hc, Prod.mk.injEq] at h
    exact h.1.symm
  | some cart =>
    cases hu : findUser db s.userId with
    | none =>
      simp only [handleCheckoutSessionCompleted, hc, hu, Prod.mk.injEq] at h
      exact h.1.symm
    | some user =>
      cases hp : prepare db (cartItemsOf db cart.id) 0 with
      | error e =>
        simp only [handleCheckoutSessionCompleted, hc, hu, hp, Prod.mk.injEq] at h
        exact h.1.symm
      | ok pr =>
        obtain ⟨lds, orderTotal⟩ := pr
        cases ht : settleTx db s now user.email (cartItemsOf db cart.id) lds orderTotal with
        | error e =>
          simp only [handleCheckoutSessionCompleted, hc, hu, hp, ht, Prod.mk.injEq] at h
          exact h.1.symm
        | ok pr2 =>
          obtain ⟨db2, oid2⟩ := pr2
          simp only [handleCheckoutSessionCompleted, hc, hu, hp, ht, Prod.mk.injEq] at h
          exact absurd h.2.symm (hns oid2)

end Webhook

namespace Webhook

theorem prepare_ok_total {db : DB} : ∀ (items : List CartItem) (acc : ℚ) (lds : List LineData) (t : ℚ),
    prepare db items acc = .ok (lds, t) → t = qadd acc (sumq (lds.map (fun ld => ld.total))) := by
  intro items
  induction items with
  | nil =>
    intro acc lds t h
    simp only [prepare, Except.ok.injEq, Prod.mk.injEq] at h
    obtain ⟨hl, ht⟩ := h
    subst hl; subst ht
    simp [sumq, qadd_eq_add]
  | cons item rest ih =>
    intro acc lds t h
    cases hv : findVariant db item.variantId with
    | none =>
      simp only [prepare, hv] at h
      exact Except.noConfusion h
    | some v =>
      cases hpp : findProduct db item.productId with
      | none =>
        simp only [prepare, hv, hpp] at h
        exact Except.noConfusion h
      | some p =>
        by_cases hs : v.stock < item.quantity
        · simp only [prepare, hv, hpp, if_pos hs] at h
          exact Except.noConfusion h
        · simp only [prepare, hv, hpp, if_neg hs] at h
          cases hr : prepare db rest (qadd acc (qmul v.price (intToQ item.quantity))) with
          | error e => rw [hr] at h; exact Except.noConfusion h
          | ok pr =>
            obtain ⟨lds2, t2⟩ := pr
            rw [hr] at h
            simp only [Except.ok.injEq, Prod.mk.injEq] at h
            obtain ⟨hl, ht⟩ := h
            subst hl; subst ht
            have hrec := ih (qadd acc (qmul v.price (intToQ item.quantity))) lds2 t2 hr
            rw [hrec]
            simp only [List.map_cons, sumq, List.foldr_cons]
            rw [qadd_eq_add, qadd_eq_add, qadd_eq_add, qadd_eq_add]
            ring

theorem prepare_ok_catalog {db : DB} : ∀ (items : List CartItem) (acc : ℚ) (lds : List LineData) (t : ℚ),
    prepare db items acc = .ok (lds, t) →
    ∀ ld ∈ lds, ∃ item, item ∈ items ∧ ∃ v, findVariant db item.variantId = some v ∧
      ∃ p, findProduct db item.productId = some p ∧
      ld.productId = item.productId ∧ ld.variantId = item.variantId ∧
      ld.quantity = item.quantity ∧ ld.price = v.price ∧
      ld.total = qmul v.price (intToQ item.quantity) ∧
      ld.title = p.name ∧ ld.variantTitle = v.title ∧ ld.sku = v.sku := by
  intro items
  induction items with
  | nil =>
    intro acc lds t h
    simp only [prepare, Except.ok.injEq, Prod.mk.injEq] at h
    obtain ⟨hl, _⟩ := h
    subst hl
    intro ld hld
    exact absurd hld (List.not_mem_nil ld)
  | cons item rest ih =>
    intro acc lds t h
    cases hv : findVariant db item.variantId with
    | none =>
      simp only [prepare, hv] at h
      exact Except.noConfusion h
    | some v =>
      cases hpp : findProduct db item.productId with
      | none =>
        simp only [prepare, hv, hpp] at h
        exact Except.noConfusion h
      | some p =>
        by_cases hs : v.stock < item.quantity
        · simp only [prepare, hv, hpp, if_pos hs] at h
          exact Except.noConfusion h
        · simp only [prepare, hv, hpp, if_neg hs] at h
          cases hr : prepare db rest (qadd acc (qmul v.price (intToQ item.quantity))) with
          | error e => rw [hr] at h; exact Except.noConfusion h
          | ok pr =>
            obtain ⟨lds2, t2⟩ := pr
            rw [hr] at h
            simp only [Except.ok.injEq, Prod.mk.injEq] at h
            obtain ⟨hl, _⟩ := h
            subst hl
            intro ld hld
            cases List.mem_cons.mp hld with
            | inl hhead =>
              subst hhead
              exact ⟨item, List.mem_cons_self item rest, v, hv, p, hpp,
                rfl, rfl, rfl, rfl, rfl, rfl, rfl, rfl⟩
            | inr htail =>
              obtain ⟨item2, hmem, rest2⟩ := ih _ lds2 t2 hr ld htail
              exact ⟨item2, List.mem_cons_of_mem item hmem, rest2⟩

theorem handle_settled_full {db db' : DB} {s : Session} {now oid : ℕ}
    (h : handleCheckoutSessionCompleted db s now = (db', .settled oid)) :
    ∃ cart user lds orderTotal,
      findCart db s.cartId = some cart ∧
      findUser db s.userId = some user ∧
      prepare db (cartItemsOf db cart.id) 0 = .ok (lds, orderTotal) ∧
      settlementEffects db db' s now oid user.email (cartItemsOf db cart.id) lds orderTotal ∧
      db.transactions.any (fun t => t.stripeId == s.paymentIntent) = false := by
  obtain ⟨cart, user, lds, orderTotal, hc, hu, hp, ht⟩ := handle_settled h
  obtain ⟨db2, db3, h1, h2, hclr⟩ := settleTx_ok ht
  obtain ⟨hany1, hoid, hdb2⟩ := createOrder_ok h1
  obtain ⟨hany2, hdb3⟩ := createTxn_ok h2
  obtain ⟨f1, f2, f3, f4, f5, f6, f7, f8⟩ := decStock_fields (cartItemsOf db cart.id) db
  subst hdb2
  subst hdb3
  subst hclr
  refine ⟨cart, user, lds, orderTotal, hc, hu, hp, ?_, ?_⟩
  · unfold settlementEffects
    refine ⟨?_, ?_, ?_, ?_, ?_, ?_, ?_, ?_, ?_, ?_⟩ <;>
      simp [clearCartItems, f1, f2, f3, f4, f5, f6, f7, f8, hoid]
  · rw [f7] at hany2
    exact hany2

theorem filter_nil_of_any_false {α : Type} (p : α → Bool) :
    ∀ l : List α, l.any p = false → l.filter p = [] := by
  intro l
  induction l with
  | nil => intro _; rfl
  | cons a t ih =>
    intro h
    simp only [List.any_cons, Bool.or_eq_false_iff] at h
    simp [List.filter_cons, h.1, ih h.2]

theorem filter_filter_not {α : Type} (p : α → Bool) :
    ∀ l : List α, (l.filter (fun x => !(p x))).filter p = [] := by
  intro l
  induction l with
  | nil => rfl
  | cons a t ih =>
    cases hp : p a with
    | true => simp [List.filter_cons, hp, ih]
    | false => simp [List.filter_cons, hp, ih]

end Webhook

namespace Webhook

theorem findCart_id {db : DB} {cid : ℕ} {cart : Cart} (h : findCart db cid = some cart) :
    cart.id = cid := by
  unfold findCart at h
  have hb := List.find?_some h
  simpa using hb

end Webhook

/-! ### Claim C1 -/

/-- C1: every delivery of a `checkout.session.completed` event that reaches
the settlement step is atomic over its sub-steps: any outcome other than
`settled` leaves the database exactly as it was (no Order row, no
OrderTransaction row, no stock decrement, no cart-item deletion), and a
`settled` outcome persists all four groups of effects together. -/
theorem settlement_transaction_atomic (db : Webhook.DB) (s : Webhook.Session) (now : ℕ) :
    (∀ db' o, Webhook.handleCheckoutSessionCompleted db s now = (db', o) →
      (∀ oid, o ≠ Webhook.Outcome.settled oid) → db' = db) ∧
    (∀ db' oid,
      Webhook.handleCheckoutSessionCompleted db s now = (db', Webhook.Outcome.settled oid) →
      ∃ cart user lds orderTotal,
        Webhook.findCart db s.cartId = some cart ∧
        Webhook.findUser db s.userId = some user ∧
        Webhook.prepare db (Webhook.cartItemsOf db cart.id) 0 = Except.ok (lds, orderTotal) ∧
        Webhook.settlementEffects db db' s now oid user.email
          (Webhook.cartItemsOf db cart.id) lds orderTotal) := by
  constructor
  · intro db' o h hns
    exact Webhook.handle_not_settled h hns
  · intro db' oid h
    obtain ⟨cart, user, lds, orderTotal, hc, hu, hp, heff, _⟩ := Webhook.handle_settled_full h
    exact ⟨cart, user, lds, orderTotal, hc, hu, hp, heff⟩

/-- C1 witness: on the concrete fixture the settlement succeeds and all four
effect groups are visible; on the duplicate-transaction fixture the failed
settlement leaves the state untouched. -/
theorem settlement_transaction_atomic_witness :
    ((Webhook.handleCheckoutSessionCompleted wDb wSession 5).2 = Webhook.Outcome.settled 1 ∧
      (∃ cart user lds orderTotal,
        Webhook.findCart wDb wSession.cartId = some cart ∧
        Webhook.findUser wDb wSession.userId = some user ∧
        Webhook.prepare wDb (Webhook.cartItemsOf wDb cart.id) 0 = Except.ok (lds, orderTotal) ∧
        Webhook.settlementEffects wDb (Webhook.handleCheckoutSessionCompleted wDb wSession 5).1
          wSession 5 1 user.email (Webhook.cartItemsOf wDb cart.id) lds orderTotal)) ∧
    (Webhook.handleCheckoutSessionCompleted wDbDup wSession 9).1 = wDbDup := by
  refine ⟨⟨by decide, ?_⟩, ?_⟩
  · exact (settlement_transaction_atomic wDb wSession 5).2
      (Webhook.handleCheckoutSessionCompleted wDb wSession 5).1 1 (by decide)
  · refine (settlement_transaction_atomic wDbDup wSession 9).1
      (Webhook.handleCheckoutSessionCompleted wDbDup wSession 9).1
      (Webhook.handleCheckoutSessionCompleted wDbDup wSession 9).2 rfl ?_
    intro i hcontra
    have he : (Webhook.handleCheckoutSessionCompleted wDbDup wSession 9).2 =
        Webhook.Outcome.txFailed Webhook.TxErr.dupStripeId := by decide
    rw [he] at hcontra
    exact Webhook.Outcome.noConfusion hcontra

/-! ### Claim C2 -/

/-- C2: webhook settlement is idempotent at the database level. If a delivery
of the event settled (one new Order, one OrderTransaction carrying the
session's payment identifier), then a second delivery of the same session, at
any later timestamp, changes nothing: the cart is already empty and the
settlement transaction aborts on the `order_transactions_stripe_id_key`
unique index, so exactly one Order and one OrderTransaction remain. -/
theorem settlement_idempotent (db db1 : Webhook.DB) (s : Webhook.Session) (now1 now2 oid : ℕ)
    (h : Webhook.handleCheckoutSessionCompleted db s now1 = (db1, Webhook.Outcome.settled oid)) :
    (Webhook.handleCheckoutSessionCompleted db1 s now2).1 = db1 ∧
    db1.orders.length = db.orders.length + 1 ∧
    (db1.transactions.filter (fun t => t.stripeId == s.paymentIntent)).length = 1 := by
  obtain ⟨cart, user, lds, orderTotal, hc, hu, hp, heff, hnodup⟩ := Webhook.handle_settled_full h
  obtain ⟨hoid, horders, hlis, htxns, hvars, hcitems, hcarts, husers, hprods, hnext⟩ := heff
  have hlen : db1.orders.length = db.orders.length + 1 := by
    rw [horders]; simp
  have hfilter : (db1.transactions.filter (fun t => t.stripeId == s.paymentIntent)).length = 1 := by
    rw [htxns, List.filter_append, Webhook.filter_nil_of_any_false _ _ hnodup]
    simp
  refine ⟨?_, hlen, hfilter⟩
  have hfc2 : Webhook.findCart db1 s.cartId = some cart := by
    unfold Webhook.findCart at hc ⊢
    rw [hcarts]
    exact hc
  have hfu2 : Webhook.findUser db1 s.userId = some user := by
    unfold Webhook.findUser at hu ⊢
    rw [husers]
    exact hu
  have hcid : cart.id = s.cartId := Webhook.findCart_id hc
  have hitems2 : Webhook.cartItemsOf db1 cart.id = [] := by
    unfold Webhook.cartItemsOf
    rw [hcitems, hcid]
    exact Webhook.filter_filter_not _ _
  have hanytx : db1.transactions.any (fun t => t.stripeId == s.paymentIntent) = true := by
    rw [htxns]
    simp [List.any_append]
  have hprep2 : Webhook.prepare db1 [] 0 = Except.ok (([] : List Webhook.LineData), (0 : ℚ)) := rfl
  have hst : ∃ e, Webhook.settleTx db1 s now2 user.email [] [] 0 = Except.error e := by
    cases hany : db1.orders.any (fun o => o.orderNumberNow == now2 && o.orderNumberUser == s.userId) with
    | true =>
      exact ⟨Webhook.TxErr.dupOrderNumber,
        by simp [Webhook.settleTx, Webhook.decStock, Webhook.createOrder, hany]⟩
    | false =>
      refine ⟨Webhook.TxErr.dupStripeId, ?_⟩
      simp [Webhook.settleTx, Webhook.decStock, Webhook.createOrder, hany, Webhook.createTxn, hanytx]
  obtain ⟨e, he⟩ := hst
  simp [Webhook.handleCheckoutSessionCompleted, hfc2, hfu2, hitems2, hprep2, he]

/-- C2 witness: delivering the fixture event twice yields one order, one
transaction, and an unchanged state after the second delivery. -/
theorem settlement_idempotent_witness :
    Webhook.handleCheckoutSessionCompleted wDb wSession 5 =
      ((Webhook.handleCheckoutSessionCompleted wDb wSession 5).1, Webhook.Outcome.settled 1) ∧
    ((Webhook.handleCheckoutSessionCompleted
        (Webhook.handleCheckoutSessionCompleted wDb wSession 5).1 wSession 9).1 =
      (Webhook.handleCheckoutSessionCompleted wDb wSession 5).1 ∧
    (Webhook.handleCheckoutSessionCompleted wDb wSession 5).1.orders.length =
      wDb.orders.length + 1 ∧
    ((Webhook.handleCheckoutSessionCompleted wDb wSession 5).1.transactions.filter
        (fun t => t.stripeId == wSession.paymentIntent)).length = 1) := by
  refine ⟨by decide, ?_⟩
  exact settlement_idempotent wDb (Webhook.handleCheckoutSessionCompleted wDb wSession 5).1
    wSession 5 9 1 (by decide)

/-! ### Claim C3 -/

/-- C3 counterexample: an authenticated, dispatched event whose internal
processing raises an error (the settlement transaction aborts on the
duplicate `stripeId` unique index) is still acknowledged with 200, not 500:
`handleCheckoutSessionCompleted` catches every error it raises (payment.js
lines 308-311), so the webhook's 500 branch never sees it. -/
theorem webhook_error_ack_counterexample :
    (Webhook.handleCheckoutSessionCompleted wDbDup wSession 9).2 =
      Webhook.Outcome.txFailed Webhook.TxErr.dupStripeId ∧
    Webhook.handleStripeWebhook wDbDup true Webhook.EventType.checkoutSessionCompleted
      wSession 9 = (200, wDbDup) := by decide

/-- C3 amended: every authenticated and dispatched webhook event is
acknowledged with HTTP 200, even when internal processing of the event fails,
because both event handlers catch their own errors; only a signature failure
produces a non-200 response (400). -/
theorem webhook_always_ack_200 (db : Webhook.DB) (ev : Webhook.EventType)
    (s : Webhook.Session) (now : ℕ) :
    (Webhook.handleStripeWebhook db true ev s now).1 = 200 := by
  cases ev <;> simp [Webhook.handleStripeWebhook]

/-! ### Claim C6 -/

/-- C6 counterexample: settlement prices a line item with the variant's
current catalog price (12), not the cart item's at-add-time `itemPrice`
snapshot (10): payment.js line 222 reads `item.variant.price`, never
`item.itemPrice`. -/
theorem settlement_price_snapshot_counterexample :
    ((Webhook.handleCheckoutSessionCompleted wDb wSession 5).1.lineItems.map
      (fun li => li.price)) = [mkRat 12 1] ∧
    wDb.cartItems.map (fun i => i.itemPrice) = [mkRat 10 1] ∧
    (mkRat 12 1 : ℚ) ≠ mkRat 10 1 := by decide

/-- C6 amended: every order line item created by webhook settlement is built
from the catalog rows as they stand at settlement time: its unit price is the
variant's current `price` (not the cart item's `itemPrice` snapshot), its
line total is that unit price times the purchased quantity, and it copies the
product name, variant title and sku current at order creation. -/
theorem line_items_from_current_catalog (db db' : Webhook.DB) (s : Webhook.Session)
    (now oid : ℕ)
    (h : Webhook.handleCheckoutSessionCompleted db s now = (db', Webhook.Outcome.settled oid)) :
    db'.lineItems.take db.lineItems.length = db.lineItems ∧
    ∀ li ∈ db'.lineItems.drop db.lineItems.length,
      ∃ item, item ∈ db.cartItems ∧ item.cartId = s.cartId ∧
        ∃ v, Webhook.findVariant db item.variantId = some v ∧
        ∃ p, Webhook.findProduct db item.productId = some p ∧
        li.orderId = oid ∧ li.productId = item.productId ∧ li.variantId = item.variantId ∧
        li.quantity = item.quantity ∧
        li.price = v.price ∧
        li.total = qmul v.price (intToQ item.quantity) ∧
        li.title = p.name ∧ li.variantTitle = v.title ∧ li.sku = v.sku := by
  obtain ⟨cart, user, lds, orderTotal, hc, hu, hp, heff, _⟩ := Webhook.handle_settled_full h
  obtain ⟨hoid, horders, hlis, htxns, hvars, hcitems, hcarts, husers, hprods, hnext⟩ := heff
  have hcid : cart.id = s.cartId := Webhook.findCart_id hc
  constructor
  · rw [hlis, List.take_left]
  · intro li hli
    rw [hlis, List.drop_left] at hli
    obtain ⟨ld, hldmem, hldeq⟩ := List.mem_map.mp hli
    obtain ⟨item, hitem, v, hv, p, hpp, e1, e2, e3, e4, e5, e6, e7, e8⟩ :=
      Webhook.prepare_ok_catalog _ _ _ _ hp ld hldmem
    subst hldeq
    have hitem2 := List.mem_filter.mp (by
      have := hitem
      unfold Webhook.cartItemsOf at this
      exact this)
    refine ⟨item, hitem2.1, ?_, v, hv, p, hpp, rfl, e1, e2, e3, e4, e5, e6, e7, e8⟩
    have hbeq : (item.cartId == cart.id) = true := hitem2.2
    have : item.cartId = cart.id := by simpa using hbeq
    rw [this, hcid]

/-- C6 amended witness: on the concrete fixture the settlement succeeds and
the created line item satisfies the catalog-price description. -/
theorem line_items_from_current_catalog_witness :
    Webhook.handleCheckoutSessionCompleted wDb wSession 5 =
      ((Webhook.handleCheckoutSessionCompleted wDb wSession 5).1, Webhook.Outcome.settled 1) ∧
    ((Webhook.handleCheckoutSessionCompleted wDb wSession 5).1.lineItems.take
        wDb.lineItems.length = wDb.lineItems ∧
      ∀ li ∈ (Webhook.handleCheckoutSessionCompleted wDb wSession 5).1.lineItems.drop
          wDb.lineItems.length,
        ∃ item, item ∈ wDb.cartItems ∧ item.cartId = wSession.cartId ∧
          ∃ v, Webhook.findVariant wDb item.variantId = some v ∧
          ∃ p, Webhook.findProduct wDb item.productId = some p ∧
          li.orderId = 1 ∧ li.productId = item.productId ∧ li.variantId = item.variantId ∧
          li.quantity = item.quantity ∧
          li.price = v.price ∧
          li.total = qmul v.price (intToQ item.quantity) ∧
          li.title = p.name ∧ li.variantTitle = v.title ∧ li.sku = v.sku) := by
  refine ⟨by decide, ?_⟩
  exact line_items_from_current_catalog wDb
    (Webhook.handleCheckoutSessionCompleted wDb wSession 5).1 wSession 5 1 (by decide)

/-! ### Claim C9 -/

/-- C9: every Order created by the webhook settlement path carries
`taxAmount = 0`, `shippingAmount = 0`, and a `subtotal` equal to
`totalAmount` equal to the sum of the totals of the line items the settlement
created; no tax or shipping charge is ever added on this path. -/
theorem settlement_order_totals (db db' : Webhook.DB) (s : Webhook.Session) (now oid : ℕ)
    (h : Webhook.handleCheckoutSessionCompleted db s now = (db', Webhook.Outcome.settled oid)) :
    ∃ o, db'.orders = db.orders ++ [o] ∧
      o.taxAmount = 0 ∧ o.shippingAmount = 0 ∧ o.subtotal = o.totalAmount ∧
      o.totalAmount = sumq ((db'.lineItems.drop db.lineItems.length).map (fun li => li.total)) ∧
      db'.lineItems.take db.lineItems.length = db.lineItems := by
  obtain ⟨cart, user, lds, orderTotal, hc, hu, hp, heff, _⟩ := Webhook.handle_settled_full h
  obtain ⟨hoid, horders, hlis, htxns, hvars, hcitems, hcarts, husers, hprods, hnext⟩ := heff
  have htot := Webhook.prepare_ok_total _ _ _ _ hp
  rw [qadd_eq_add, zero_add] at htot
  refine ⟨_, horders, rfl, rfl, rfl, ?_, by rw [hlis, List.take_left]⟩
  rw [hlis, List.drop_left, List.map_map]
  exact htot

/-- C9 witness: the fixture's settled order has zero tax and shipping and its
totals agree with the sum of its line totals. -/
theorem settlement_order_totals_witness :
    Webhook.handleCheckoutSessionCompleted wDb wSession 5 =
      ((Webhook.handleCheckoutSessionCompleted wDb wSession 5).1, Webhook.Outcome.settled 1) ∧
    (∃ o, (Webhook.handleCheckoutSessionCompleted wDb wSession 5).1.orders = wDb.orders ++ [o] ∧
      o.taxAmount = 0 ∧ o.shippingAmount = 0 ∧ o.subtotal = o.totalAmount ∧
      o.totalAmount = sumq (((Webhook.handleCheckoutSessionCompleted wDb wSession 5).1.lineItems.drop
        wDb.lineItems.length).map (fun li => li.total)) ∧
      (Webhook.handleCheckoutSessionCompleted wDb wSession 5).1.lineItems.take
        wDb.lineItems.length = wDb.lineItems) := by
  refine ⟨by decide, ?_⟩
  exact settlement_order_totals wDb
    (Webhook.handleCheckoutSessionCompleted wDb wSession 5).1 wSession 5 1 (by decide)

/-! ### Claim C4 -/

/-- C4: the claimed bound fails. With stock `S = 1` and two concurrent
settlement attempts of quantity `q = 1` each, the schedule that runs both
stock pre-checks before either decrement (check 0, check 1, decrement 0,
decrement 1) drives the stock to `-1` and lets both attempts succeed, while
the claim demands stock `≥ 0` and at most `⌊S/q⌋ = 1` success. The code's
pre-check (payment.js lines 221-231) reads the stock in a separate round trip
from the unconditional decrement (lines 255-261), so this interleaving is
possible. -/
theorem stock_race_oversell :
    StockRace.run ⟨1, [(1, .beforeCheck), (1, .beforeCheck)]⟩ [0, 1, 0, 1] =
      ⟨-1, [(1, .succeeded), (1, .succeeded)]⟩ ∧
    (StockRace.run ⟨1, [(1, .beforeCheck), (1, .beforeCheck)]⟩ [0, 1, 0, 1]).stock < 0 ∧
    StockRace.succeededCount
      (StockRace.run ⟨1, [(1, .beforeCheck), (1, .beforeCheck)]⟩ [0, 1, 0, 1]) = 2 ∧
    ((1 : ℤ) / 1 : ℤ) = 1 := by decide

/-! ### Claim C5 -/

/-- C5: the cart total is not computed with decimal-precise arithmetic. For a
single item with `itemPrice = 0.10` and quantity 3 the recomputation
`calculateTotalPrice` performed after every cart mutation returns the binary64
value `0.30000000000000004...` (`1351079888211149 / 4503599627370496`), not
the exact decimal sum `0.30`. -/
theorem cart_total_float_drift :
    calculateTotalPrice [⟨mkRat 1 10, 3⟩] ≠ exactTotalPrice [⟨mkRat 1 10, 3⟩] ∧
    exactTotalPrice [⟨mkRat 1 10, 3⟩] = mkRat 3 10 ∧
    calculateTotalPrice [⟨mkRat 1 10, 3⟩] = mkRat 1351079888211149 4503599627370496 := by decide

/-! ### Claim C7 -/

/-- C7 counterexample: variant 5 exists but belongs to product 2, yet
`addItem(user 1, product 1, variant 5, qty 1)` succeeds with 201 and persists
a cart item for the mismatched pair — the route never checks that the variant
belongs to the stated product. -/
theorem add_item_wrong_product_counterexample :
    (CartApi.addItem cDb 1 1 5 1).1 = 201 ∧
    ((CartApi.addItem cDb 1 1 5 1).2.items.map (fun i => (i.productId, i.variantId))) = [(1, 5)] ∧
    CartApi.findVariant cDb 5 = some ⟨5, 2, mkRat 10 1⟩ ∧
    (2 : ℕ) ≠ 1 := by decide

/-- C7 amended: when the referenced variant does not exist, `addItem` fails
with 404 and creates or modifies no cart item (an empty ACTIVE cart may still
be created first); an existing variant is accepted even when it belongs to a
different product, membership is not validated. -/
theorem add_item_missing_variant_404 (db : CartApi.DB) (userId productId variantId : ℕ)
    (qty : ℤ) (h : CartApi.findVariant db variantId = none) :
    (CartApi.addItem db userId productId variantId qty).1 = 404 ∧
    (CartApi.addItem db userId productId variantId qty).2.items = db.items := by
  have hgen : ∀ db0 : CartApi.DB, db0.variants = db.variants →
      CartApi.findVariant db0 variantId = none := by
    intro db0 he
    unfold CartApi.findVariant at h ⊢
    rw [he]
    exact h
  cases hac : CartApi.findActiveCart db userId with
  | some c =>
    constructor <;> simp [CartApi.addItem, hac, hgen db rfl]
  | none =>
    have hv2 := hgen { db with
      carts := db.carts ++ [⟨db.nextCartId, userId, CartApi.CartStatus.ACTIVE, 0, none, none⟩],
      nextCartId := db.nextCartId + 1 } rfl
    constructor <;> simp [CartApi.addItem, hac, hv2]

/-- C7 amended witness: adding a nonexistent variant to a fresh state returns
404 and leaves the cart items untouched. -/
theorem add_item_missing_variant_404_witness :
    CartApi.findVariant cDb 99 = none ∧
    ((CartApi.addItem cDb 1 1 99 1).1 = 404 ∧ (CartApi.addItem cDb 1 1 99 1).2.items = cDb.items) :=
  ⟨by decide, add_item_missing_variant_404 cDb 1 1 99 1 (by decide)⟩

/-! ### Claim C8 -/

/-- C8: direct checkout with no ACTIVE cart, or with an ACTIVE cart that has
no items, returns 400 and leaves the entire state unchanged — in particular
no Order is created and the cart state is untouched. -/
theorem checkout_empty_cart_400 (db : CartApi.DB) (userId : ℕ) (a p n : String) (now : ℕ) :
    (CartApi.findActiveCart db userId = none →
      CartApi.checkout db userId a p n now = (400, db)) ∧
    (∀ c, CartApi.findActiveCart db userId = some c → CartApi.itemsOfCart db c.id = [] →
      CartApi.checkout db userId a p n now = (400, db)) := by
  constructor
  · intro h
    simp [CartApi.checkout, h]
  · intro c h hempty
    simp [CartApi.checkout, h, hempty]

/-- C8 witness: both precondition failures on concrete states return 400 with
the state unchanged. -/
theorem checkout_empty_cart_400_witness :
    (CartApi.findActiveCart cDb 1 = none ∧
      CartApi.checkout cDb 1 "addr" "card" "" 5 = (400, cDb)) ∧
    (CartApi.findActiveCart cDbEmptyCart 1 = some ⟨10, 1, CartApi.CartStatus.ACTIVE, 0, none, none⟩ ∧
      CartApi.itemsOfCart cDbEmptyCart 10 = [] ∧
      CartApi.checkout cDbEmptyCart 1 "addr" "card" "" 5 = (400, cDbEmptyCart)) := by
  refine ⟨⟨by decide, ?_⟩, by decide, by decide, ?_⟩
  · exact (checkout_empty_cart_400 cDb 1 "addr" "card" "" 5).1 (by decide)
  · exact (checkout_empty_cart_400 cDbEmptyCart 1 "addr" "card" "" 5).2
      ⟨10, 1, CartApi.CartStatus.ACTIVE, 0, none, none⟩ (by decide) (by decide)

/-! ### Claim C10 -/

/-- C10: `updateItemQuantity` changes only the target item's `quantity`; its
`itemPrice` snapshot, `productId`, `variantId` and cart linkage are untouched
and every other item is unchanged. In contrast, `addItem` on an existing item
also refreshes the `itemPrice` snapshot to the variant's current price while
incrementing the quantity. -/
theorem update_quantity_frame :
    (∀ (db : CartApi.DB) (userId itemId : ℕ) (q : ℤ) (db' : CartApi.DB),
      CartApi.updateItemQuantity db userId itemId q = (200, db') →
      db'.items = db.items.map (fun j => if j.id == itemId then { j with quantity := q } else j)) ∧
    (∀ (db : CartApi.DB) (userId productId variantId : ℕ) (q : ℤ) (db' : CartApi.DB),
      CartApi.addItem db userId productId variantId q = (200, db') →
      ∃ v it, CartApi.findVariant db variantId = some v ∧ it ∈ db.items ∧
        db'.items = db.items.map (fun j =>
          if j.id == it.id then { j with quantity := it.quantity + q, itemPrice := v.price } else j)) := by
  constructor
  · intro db userId itemId q db' h
    cases hfi : CartApi.findItem db itemId with
    | none =>
      simp only [CartApi.updateItemQuantity, hfi] at h
      exact absurd (congrArg Prod.fst h) (by simp)
    | some item =>
      cases hfc : CartApi.findCartRow db item.cartId with
      | none =>
        simp only [CartApi.updateItemQuantity, hfi, hfc] at h
        exact absurd (congrArg Prod.fst h) (by simp)
      | some cart =>
        by_cases hown : cart.userId ≠ userId ∨ cart.cartStatus ≠ CartApi.CartStatus.ACTIVE
        · simp only [CartApi.updateItemQuantity, hfi, hfc, if_pos hown] at h
          exact absurd (congrArg Prod.fst h) (by simp)
        · simp only [CartApi.updateItemQuantity, hfi, hfc, if_neg hown] at h
          injection h with h1 h2
          rw [← h2]
          simp [CartApi.recalcCartTotal]
  · intro db userId productId variantId q db' h
    cases hac : CartApi.findActiveCart db userId with
    | some c =>
      cases hfv : CartApi.findVariant db variantId with
      | none =>
        simp only [CartApi.addItem, hac, hfv] at h
        exact absurd (congrArg Prod.fst h) (by simp)
      | some v =>
        cases hex : db.items.find?
            (fun i => i.cartId == c.id && i.productId == productId && i.variantId == variantId) with
        | some it =>
          simp only [CartApi.addItem, hac, hfv, hex] at h
          injection h with h1 h2
          refine ⟨v, it, rfl, List.mem_of_find?_eq_some hex, ?_⟩
          rw [← h2]
          simp [CartApi.recalcCartTotal]
        | none =>
          by_cases hpc : db.products.contains productId
          · simp only [CartApi.addItem, hac, hfv, hex, if_pos hpc] at h
            exact absurd (congrArg Prod.fst h) (by simp)
          · simp only [CartApi.addItem, hac, hfv, hex, if_neg hpc] at h
            exact absurd (congrArg Prod.fst h) (by simp)
    | none =>
      cases hfv : CartApi.findVariant db variantId with
      | none =>
        have hfvP : CartApi.findVariant { db with
            carts := db.carts ++ [⟨db.nextCartId, userId, CartApi.CartStatus.ACTIVE, 0, none, none⟩],
            nextCartId := db.nextCartId + 1 } variantId = none := hfv
        simp only [CartApi.addItem, hac, hfvP] at h
        simp at h
      | some v =>
        have hfvP : CartApi.findVariant { db with
            carts := db.carts ++ [⟨db.nextCartId, userId, CartApi.CartStatus.ACTIVE, 0, none, none⟩],
            nextCartId := db.nextCartId + 1 } variantId = some v := hfv
        cases hex : db.items.find?
            (fun i => i.cartId == db.nextCartId && i.productId == productId && i.variantId == variantId) with
        | some it =>
          have hexP : ({ db with
              carts := db.carts ++ [⟨db.nextCartId, userId, CartApi.CartStatus.ACTIVE, 0, none, none⟩],
              nextCartId := db.nextCartId + 1 } : CartApi.DB).items.find?
              (fun i => i.cartId == db.nextCartId && i.productId == productId && i.variantId == variantId) =
              some it := hex
          simp only [CartApi.addItem, hac, hfvP, hexP, Prod.mk.injEq] at h
          refine ⟨v, it, rfl, List.mem_of_find?_eq_some hex, ?_⟩
          rw [← h.2]
          simp [CartApi.recalcCartTotal]
        | none =>
          have hexP : ({ db with
              carts := db.carts ++ [⟨db.nextCartId, userId, CartApi.CartStatus.ACTIVE, 0, none, none⟩],
              nextCartId := db.nextCartId + 1 } : CartApi.DB).items.find?
              (fun i => i.cartId == db.nextCartId && i.productId == productId && i.variantId == variantId) =
              none := hex
          simp only [CartApi.addItem, hac, hfvP, hexP] at h
          by_cases hpc : productId ∈ db.products
          · simp [hpc] at h
          · simp [hpc] at h
/-- C10 witness: on the concrete state, the quantity update keeps the
snapshot price 10, while `addItem` on the same item refreshes it to the
current catalog price 12. -/
theorem update_quantity_frame_witness :
    CartApi.updateItemQuantity cDb10 1 20 4 = (200, (CartApi.updateItemQuantity cDb10 1 20 4).2) ∧
    (CartApi.updateItemQuantity cDb10 1 20 4).2.items =
      cDb10.items.map (fun j => if j.id == 20 then { j with quantity := 4 } else j) ∧
    CartApi.addItem cDb10 1 1 5 2 = (200, (CartApi.addItem cDb10 1 1 5 2).2) ∧
    (∃ v it, CartApi.findVariant cDb10 5 = some v ∧ it ∈ cDb10.items ∧
      (CartApi.addItem cDb10 1 1 5 2).2.items = cDb10.items.map (fun j =>
        if j.id == it.id then { j with quantity := it.quantity + 2, itemPrice := v.price } else j)) := by
  refine ⟨by decide, ?_, by decide, ?_⟩
  · exact update_quantity_frame.1 cDb10 1 20 4 _ (by decide)
  · exact update_quantity_frame.2 cDb10 1 1 5 2 _ (by decide)
